import Mathlib

/-!
Verification of the NextLogic AI backend (`server.js`, full variant).

The server state is the pair of in-memory collections `users` and
`aiUsageLog`; the static `assignments` seed is a constant.  Handlers are
embedded as pure functions from an explicit state (plus the request data,
the clock value in milliseconds, and an oracle describing the upstream
Gemini call) to a result and a new state.  JavaScript strings are embedded
as Lean strings (character-counted; the sources only use ASCII), absent
JSON fields as `Option`, and JS truthiness of a string field as
"present and nonempty".
-/

/-- A user record as created by `POST /api/auth/register`.  The `password`
field holds the bcrypt hash, never the plaintext. -/
structure User where
  id : String
  name : String
  email : String
  password : String
  role : String
  aiUsageCount : Nat
  totalAIRequests : Nat
  createdAt : String
  lastActive : String
deriving DecidableEq

/-- Static assignment seed data from the top of `server.js`. -/
structure Assignment where
  id : String
  name : String
  deadline : String
  aiAllowed : Bool
  description : String
deriving DecidableEq

/-- The three seeded assignments. -/
def assignments : List Assignment :=
  [ { id := "1", name := "Essay: American History", deadline := "Tomorrow",
      aiAllowed := true,
      description := "Write a 500-word essay on the American Revolution" },
    { id := "2", name := "Math Problem Set", deadline := "2 days",
      aiAllowed := false,
      description := "Complete problems 1-20 from Chapter 5" },
    { id := "3", name := "Science Lab Report", deadline := "1 week",
      aiAllowed := true,
      description := "Document your chemistry experiment findings" } ]

/-- One entry of the `aiUsageLog` ledger, as built in the remix handler. -/
structure UsageLogEntry where
  id : String
  userId : String
  userName : String
  userEmail : String
  remixType : Option String
  assignmentId : Option String
  originalContent : String
  contentLength : Nat
  timestamp : String
  timeAgo : String
deriving DecidableEq

/-- The mutable in-memory state of the server: the `users` array and the
`aiUsageLog` array (most recent entry first). -/
structure ServerState where
  users : List User
  aiUsageLog : List UsageLogEntry
deriving DecidableEq

/-- JS truthiness of an optional string field (`undefined`, `null` and the
empty string are falsy). -/
def jsPresent : Option String → Bool
  | none => false
  | some s => !(s == "")

/-- `new Date(ms).toISOString()` is modelled by the decimal millisecond
timestamp itself: the server only ever stores and copies these strings. -/
def isoTimestamp (now : Nat) : String := Nat.repr now

/-- Modelled from the spec: the `bcryptjs` hashing primitive is an external
library, not part of `src/`; the spec only requires that a one-way hash of
the secret is stored, never the plaintext, so hashing is embedded as an
uninterpreted tagging function. -/
def bcryptHash (p : String) : String := "bcrypt$2a$10$" ++ p

/-- Number of seconds in the 7-day token lifetime (`expiresIn: '7d'`). -/
def sevenDaysSecs : Nat := 7 * 24 * 60 * 60

/-- Modelled from the spec: the `jsonwebtoken` library (`jwt.sign` /
`jwt.verify`) is an external dependency, not part of `src/`.  A token is a
signed claim `\x7bissuedAt, userId\x7d`; the HMAC signature is modelled as an
ideal MAC, i.e. the signing key together with the signed payload, so that a
signature verifies exactly when it was produced over this payload with this
key. -/
structure Token where
  userId : String
  iat : Nat
  sig : String × String × Nat
deriving DecidableEq

/-- `generateToken` (`jwt.sign(\x7b userId \x7d, JWT_SECRET, \x7b expiresIn: '7d' \x7d)`):
issue a token for `userId` at time `now` (seconds). -/
def generateToken (secret userId : String) (now : Nat) : Token :=
  { userId := userId, iat := now, sig := (secret, userId, now) }

/-- `verifyToken`: signature and expiry check; returns `none` (the JS code
catches every `jwt.verify` exception and returns `null`) on a tampered or
expired token, `some userId` otherwise.  A token is expired once its age
reaches 7 days. -/
def verifyToken (secret : String) (now : Nat) (t : Token) : Option String :=
  if t.sig = (secret, t.userId, t.iat) ∧ now < t.iat + sevenDaysSecs then
    some t.userId
  else none

/-- Outcome of the `requireAuth` middleware: either an early error response
with its HTTP status, or the resolved user attached to the request. -/
inductive AuthResult
  | fail (status : Nat) (error : String)
  | ok (user : User)
deriving DecidableEq

/-- `requireAuth`: missing cookie, failed verification and unknown user all
answer 401. -/
def requireAuth (users : List User) (secret : String) (now : Nat)
    (cookie : Option Token) : AuthResult :=
  match cookie with
  | none => .fail 401 "Not authenticated"
  | some t =>
    match verifyToken secret now t with
    | none => .fail 401 "Invalid token"
    | some uid =>
      match users.find? (fun u => u.id == uid) with
      | none => .fail 401 "User not found"
      | some u => .ok u

/-- `requireTeacher`: `some (status, error)` is an early 403 response,
`none` means the request proceeds to the handler. -/
def requireTeacher (u : User) : Option (Nat × String) :=
  if u.role ≠ "admin" then some (403, "Teacher access required") else none

/-- Body of `POST /api/auth/register`. -/
structure RegisterReq where
  name : Option String
  email : Option String
  password : Option String
  access_code : Option String
deriving DecidableEq

/-- Result of the register handler (201 created, or a 400 error). -/
inductive RegisterResult
  | badRequest (error : String)
  | created
deriving DecidableEq

/-- `access_code.toUpperCase()`, character-wise (the sources use ASCII). -/
def jsToUpperCase (s : String) : String := ⟨s.data.map Char.toUpper⟩

/-- `s.startsWith(pre)`, as a character-list check. -/
def jsStartsWith (s pre : String) : Bool := pre.data.isPrefixOf s.data

/-- The role assignment rule of the register handler:
`access_code && access_code.toUpperCase().startsWith('TEACHER')`. -/
def assignedRole (access_code : Option String) : String :=
  if jsPresent access_code &&
      jsStartsWith (jsToUpperCase (access_code.getD "")) "TEACHER" then "admin"
  else "student"

/-- The user record built by a successful registration at millisecond
timestamp `now` (`id: Date.now().toString()`). -/
def newUser (req : RegisterReq) (now : Nat) : User :=
  { id := Nat.repr now,
    name := req.name.getD "",
    email := req.email.getD "",
    password := bcryptHash (req.password.getD ""),
    role := assignedRole req.access_code,
    aiUsageCount := 0,
    totalAIRequests := 0,
    createdAt := isoTimestamp now,
    lastActive := isoTimestamp now }

/-- `POST /api/auth/register`: field validation, duplicate-email check,
then `users.push(newUser)`. -/
def register (users : List User) (req : RegisterReq) (now : Nat) :
    RegisterResult × List User :=
  if !(jsPresent req.name && jsPresent req.email && jsPresent req.password) then
    (.badRequest "Name, email, and password are required", users)
  else if (req.password.getD "").length < 6 then
    (.badRequest "Password must be at least 6 characters", users)
  else
    match users.find? (fun u => u.email == req.email.getD "") with
    | some _ => (.badRequest "Email already registered", users)
    | none => (.created, users ++ [newUser req now])

/-- Body of `POST /api/ai/remix`. -/
structure RemixReq where
  content : Option String
  remixType : Option String
  assignmentId : Option String
deriving DecidableEq

/-- `content.trim()`: strip leading and trailing whitespace. -/
def jsTrim (s : String) : String :=
  ⟨((s.data.dropWhile Char.isWhitespace).reverse.dropWhile
      Char.isWhitespace).reverse⟩

/-- `!content || !content.trim()`: the content field is absent, empty, or
whitespace-only. -/
def contentMissing : Option String → Bool
  | none => true
  | some s => jsTrim s == ""

/-- The keys of the fixed `remixPrompts` mapping (18 named styles). -/
def remixKeys : List String :=
  ["tweet", "linkedin", "instagram", "facebook", "reddit", "youtube",
   "tiktok", "pinterest", "summary", "bullets", "expand", "email",
   "ad", "blog", "story", "professional", "casual", "creative"]

/-- The default template, `remixPrompts.professional`. -/
def professionalPrompt : String := "Rewrite this in a professional, formal tone."

/-- A value produced by the JS bracket lookup `remixPrompts[remixType]`:
either one of the object's own string templates, or a (truthy) member
inherited from `Object.prototype`, since a JS object literal's bracket
lookup consults the prototype chain for keys it does not own. -/
inductive PromptValue
  | template (s : String)
  | protoMember (name : String)
deriving DecidableEq

/-- The property names a plain object literal inherits from
`Object.prototype`; looking any of them up on `remixPrompts` yields a
truthy value (a function, or the prototype object itself for __proto__),
never `undefined`. -/
def protoKeys : List String :=
  ["constructor", "hasOwnProperty", "isPrototypeOf", "propertyIsEnumerable",
   "toLocaleString", "toString", "valueOf", "__defineGetter__",
   "__defineSetter__", "__lookupGetter__", "__lookupSetter__", "__proto__"]

/-- The JS bracket lookup `remixPrompts[k]`: the 18 own keys map to their
string templates, the inherited `Object.prototype` member names yield the
inherited (truthy) member, every other key is `undefined` (`none`). -/
def remixPrompts (k : String) : Option PromptValue :=
  if k = "tweet" then some (.template "Convert this into an engaging Twitter thread with 3-5 tweets. Use emojis and make it conversational.")
  else if k = "linkedin" then some (.template "Rewrite this as a professional LinkedIn post with a hook, valuable insights, and a call-to-action.")
  else if k = "instagram" then some (.template "Transform this into an Instagram caption with emojis, hashtags, and an engaging hook.")
  else if k = "facebook" then some (.template "Rewrite this as a Facebook post that encourages engagement and comments.")
  else if k = "reddit" then some (.template "Convert this into a Reddit post with a catchy title and detailed explanation.")
  else if k = "youtube" then some (.template "Create a YouTube video description with timestamps, keywords, and SEO optimization.")
  else if k = "tiktok" then some (.template "Write a short, catchy TikTok caption with trending hashtags.")
  else if k = "pinterest" then some (.template "Create a Pinterest description that drives clicks with keywords and benefits.")
  else if k = "summary" then some (.template "Summarize this content in 2-3 concise sentences.")
  else if k = "bullets" then some (.template "Convert this into clear bullet points highlighting the key information.")
  else if k = "expand" then some (.template "Expand this content with more details, examples, and explanations.")
  else if k = "email" then some (.template "Write a professional email based on this content with a clear subject line.")
  else if k = "ad" then some (.template "Create compelling ad copy with a strong headline and call-to-action.")
  else if k = "blog" then some (.template "Expand this into a full blog post with introduction, body paragraphs, and conclusion.")
  else if k = "story" then some (.template "Rewrite this as an engaging narrative story.")
  else if k = "professional" then some (.template professionalPrompt)
  else if k = "casual" then some (.template "Rewrite this in a casual, friendly tone.")
  else if k = "creative" then some (.template "Rewrite this with creative flair and engaging language.")
  else if k ∈ protoKeys then some (.protoMember k)
  else none

/-- `remixPrompts[remixType] || remixPrompts.professional`: an absent key
or a lookup that yields `undefined` falls back to the professional
template; a truthy lookup result — an own template or an inherited
`Object.prototype` member — is kept as the prompt. -/
def resolvePrompt (remixType : Option String) : PromptValue :=
  match remixType.bind remixPrompts with
  | some v => v
  | none => .template professionalPrompt

/-- String coercion of the selected prompt in the template literal
composing the upstream request.  The exact JS rendering of an inherited
member (a function source string, or "[object Object]" for __proto__) is
below this embedding; no theorem depends on this placeholder text. -/
def promptText : PromptValue → String
  | .template s => s
  | .protoMember name => "[inherited Object.prototype member: " ++ name ++ "]"

/-- `assignments.find(a => a.id === assignmentId)`, guarded by the JS
truthiness check `if (assignmentId)`. -/
def findAssignment (assignmentId : Option String) : Option Assignment :=
  if jsPresent assignmentId then
    assignments.find? (fun a => some a.id == assignmentId)
  else none

/-- The policy gate of the remix handler:
`assignment && !assignment.aiAllowed`. -/
def policyBlocksRemix (assignmentId : Option String) : Bool :=
  match findAssignment assignmentId with
  | some a => !a.aiAllowed
  | none => false

/-- `content.substring(0, 100)`: the first `n` characters of `s`. -/
def jsSubstringTo (s : String) (n : Nat) : String := ⟨s.data.take n⟩

/-- Behavior of the upstream Gemini call, supplied as an oracle: a 2xx
response with its candidate texts, a timeout (`ECONNABORTED`), or any other
network/HTTP failure. -/
inductive UpstreamBehavior
  | response (candidates : List String)
  | timeout
  | netError
deriving DecidableEq

/-- Result of the remix handler, one constructor per response shape. -/
inductive RemixResult
  | badRequest (error : String)
  | serverError (error : String)
  | policyBlocked (error : String)
  | gatewayTimeout (error : String)
  | success (output : String) (usageCount : Nat)
deriving DecidableEq

/-- HTTP status of a remix result. -/
def remixStatus : RemixResult → Nat
  | .badRequest _ => 400
  | .serverError _ => 500
  | .policyBlocked _ => 403
  | .gatewayTimeout _ => 504
  | .success _ _ => 200

/-- The machine-readable `blocked: true` flag, set only on the policy 403. -/
def blockedFlag : RemixResult → Bool
  | .policyBlocked _ => true
  | _ => false

/-- `aiUsageLog.unshift(entry)` followed by
`if (aiUsageLog.length > 100) aiUsageLog.pop()`. -/
def ledgerAppend {α : Type} (log : List α) (e : α) : List α :=
  let l := e :: log
  if l.length > 100 then l.dropLast else l

/-- In-place mutation of the user object found by `requireAuth` (the first
array element with this id), embedded as replacement of that element. -/
def updateFirstById : List User → String → User → List User
  | [], _, _ => []
  | u :: us, uid, nu =>
    if u.id == uid then nu :: us else u :: updateFirstById us uid nu

/-- What the remix handler produced: its response, the server state after
the call, and the composed upstream request if the upstream was called at
all (`none` means no upstream call was made). -/
structure RemixOutcome where
  result : RemixResult
  state : ServerState
  upstreamQuery : Option String
deriving DecidableEq

/-- `POST /api/ai/remix` after `requireAuth` attached `user`: content
validation, configuration check, assignment policy gate, prompt resolution,
upstream call, and on success usage recording and counter updates. -/
def remixHandler (s : ServerState) (user : User) (req : RemixReq)
    (geminiConfigured : Bool) (upstream : UpstreamBehavior) (now : Nat) :
    RemixOutcome :=
  if contentMissing req.content then
    ⟨.badRequest "Content is required", s, none⟩
  else if !geminiConfigured then
    ⟨.serverError "AI service not configured", s, none⟩
  else if policyBlocksRemix req.assignmentId then
    ⟨.policyBlocked "AI is not allowed for this assignment", s, none⟩
  else
    let content := req.content.getD ""
    let query := promptText (resolvePrompt req.remixType) ++ "\n\nContent to transform:\n" ++ content
    match upstream with
    | .timeout =>
      ⟨.gatewayTimeout "AI request timed out. Please try with shorter content.", s, some query⟩
    | .netError =>
      ⟨.serverError "Failed to process AI request", s, some query⟩
    | .response [] =>
      ⟨.serverError "No response from AI", s, some query⟩
    | .response (text :: _) =>
      let entry : UsageLogEntry :=
        { id := Nat.repr now,
          userId := user.id,
          userName := user.name,
          userEmail := user.email,
          remixType := req.remixType,
          assignmentId := if jsPresent req.assignmentId then req.assignmentId else none,
          originalContent := jsSubstringTo content 100 ++ "...",
          contentLength := content.length,
          timestamp := isoTimestamp now,
          timeAgo := "Just now" }
      let updated : User :=
        { user with
          aiUsageCount := user.aiUsageCount + 1,
          totalAIRequests := user.totalAIRequests + 1,
          lastActive := isoTimestamp now }
      ⟨.success text updated.aiUsageCount,
       { users := updateFirstById s.users user.id updated,
         aiUsageLog := ledgerAppend s.aiUsageLog entry },
       some query⟩

/-- `users.filter(u => u.role === 'student')`. -/
def studentsOf (users : List User) : List User :=
  users.filter (fun u => u.role == "student")

/-- The contract of the composite `totalUsage / students.length` double
division followed by `.toFixed(1)` on a nonnegative quotient: the reported
value denotes an integer number of tenths (the string has exactly one
decimal digit) lying within half a tenth of the exact rational quotient.
The exact IEEE-754 rounding is below this rational embedding, so the
computation is kept abstract and constrained only by this envelope. -/
def ToFixedContract (f : ℚ → ℚ) : Prop :=
  (∀ x : ℚ, 0 ≤ x → (f x * 10).den = 1) ∧
  (∀ x : ℚ, 0 ≤ x → |f x - x| ≤ 1 / 20)

/-- Ideal round-half-up to one decimal place: one admissible realization
of `ToFixedContract`, used to exhibit concrete runs; it is not claimed to
coincide with the code's double-based rounding everywhere. -/
def roundTenth (x : ℚ) : ℚ := (⌊x * 10 + 1 / 2⌋ : ℚ) / 10

/-- The `averageUsage` statistic of `GET /api/teacher/activity`:
`students.length > 0 ? (totalUsage / students.length).toFixed(1) : 0`,
with `f` standing for the double-division-plus-toFixed(1) computation of
the nonzero branch (constrained by `ToFixedContract`); the zero-student
branch never divides. -/
def averageUsage (f : ℚ → ℚ) (s : ServerState) : ℚ :=
  if 0 < (studentsOf s.users).length then
    f ((s.aiUsageLog.length : ℚ) / ((studentsOf s.users).length : ℚ))
  else 0

/-- A user record as exposed by the test endpoint: every field of `User`
except the password hash (`users.map((\x7b password, ...user \x7d) => user)`). -/
structure PublicUser where
  id : String
  name : String
  email : String
  role : String
  aiUsageCount : Nat
  totalAIRequests : Nat
  createdAt : String
  lastActive : String
deriving DecidableEq

/-- Rest-spread removal of the `password` field. -/
def stripPassword (u : User) : PublicUser :=
  { id := u.id, name := u.name, email := u.email, role := u.role,
    aiUsageCount := u.aiUsageCount, totalAIRequests := u.totalAIRequests,
    createdAt := u.createdAt, lastActive := u.lastActive }

/-- `GET /api/test/users`: no middleware; the cookie, if any, is ignored. -/
def testUsersHandler (cookie : Option Token) (s : ServerState) :
    Nat × List PublicUser :=
  (s.users.length, s.users.map stripPassword)

/-- `GET /api/test/logs`: no middleware; the cookie, if any, is ignored. -/
def testLogsHandler (cookie : Option Token) (s : ServerState) :
    Nat × List UsageLogEntry :=
  (s.aiUsageLog.length, s.aiUsageLog.take 10)

/-- A concrete student user, for concrete runs of the handlers. -/
def demoUser : User :=
  { id := "1700000000000", name := "Alice", email := "alice@example.com",
    password := bcryptHash "secret1", role := "student",
    aiUsageCount := 0, totalAIRequests := 0,
    createdAt := "0", lastActive := "0" }

/-- The empty server state (fresh process). -/
def emptyState : ServerState := { users := [], aiUsageLog := [] }

/-- A remix request targeting assignment 2, whose `aiAllowed` is false. -/
def blockedReq : RemixReq :=
  { content := some "hello world", remixType := some "summary",
    assignmentId := some "2" }

/-- A string of exactly 101 characters. -/
def chars101 : String := ⟨List.replicate 101 'a'⟩

/-- A remix request whose content has 101 characters. -/
def longContentReq : RemixReq :=
  { content := some chars101, remixType := none, assignmentId := none }

/-- A minimal ledger entry tagged by `i`, for exercising the ledger bound. -/
def mkEntry (i : Nat) : UsageLogEntry :=
  { id := Nat.repr i, userId := "u", userName := "n", userEmail := "e",
    remixType := none, assignmentId := none, originalContent := "c",
    contentLength := 1, timestamp := Nat.repr i, timeAgo := "Just now" }

/-- 150 distinct ledger entries, oldest first. -/
def entries150 : List UsageLogEntry := (List.range 150).map mkEntry

/-- Registration request for Alice, no access code. -/
def regReqA : RegisterReq :=
  { name := some "Alice", email := some "alice@example.com",
    password := some "secret1", access_code := none }

/-- Registration request for Bob, no access code. -/
def regReqB : RegisterReq :=
  { name := some "Bob", email := some "bob@example.com",
    password := some "secret2", access_code := none }

/-- Registration request carrying the access code TEACHERLESS. -/
def regReqT : RegisterReq :=
  { name := some "Tina", email := some "tina@example.com",
    password := some "secret3", access_code := some "TEACHERLESS" }

/-- A student user tagged by `i`. -/
def mkStudent (i : Nat) : User :=
  { id := Nat.repr i, name := "S", email := "s@example.com",
    password := bcryptHash "secret1", role := "student",
    aiUsageCount := 0, totalAIRequests := 0, createdAt := "0",
    lastActive := "0" }

/-- A server state with three students and a single usage-log entry, so the
exact average usage per student is 1/3. -/
def thirdState : ServerState :=
  { users := [mkStudent 1, mkStudent 2, mkStudent 3],
    aiUsageLog := [mkEntry 0] }

/-- Numeric value of a decimal digit character. -/
def digitVal (c : Char) : Nat := c.toNat - 48

/-- Value of a decimal digit string, most significant digit first. -/
def decimalValue (l : List Char) : Nat :=
  l.foldl (fun a c => 10 * a + digitVal c) 0

theorem decimalValue_append_singleton (l : List Char) (c : Char) :
    decimalValue (l ++ [c]) = 10 * decimalValue l + digitVal c := by
  simp [decimalValue, List.foldl_append]

theorem digitVal_digitChar : ∀ m, m < 10 → digitVal (Nat.digitChar m) = m := by
  decide

theorem toDigitsCore_append (b : Nat) :
    ∀ (fuel n : Nat) (ds : List Char),
      Nat.toDigitsCore b fuel n ds = Nat.toDigitsCore b fuel n [] ++ ds := by
  intro fuel
  induction fuel with
  | zero => intro n ds; simp [Nat.toDigitsCore]
  | succ f ih =>
    intro n ds
    simp only [Nat.toDigitsCore]
    by_cases h : n / b = 0
    · simp [h]
    · simp only [h, if_false]
      rw [ih (n / b) (Nat.digitChar (n % b) :: ds),
        ih (n / b) [Nat.digitChar (n % b)]]
      simp

theorem decimalValue_toDigitsCore :
    ∀ (fuel n : Nat), n < fuel →
      decimalValue (Nat.toDigitsCore 10 fuel n []) = n := by
  intro fuel
  induction fuel with
  | zero => intro n h; exact absurd h (Nat.not_lt_zero n)
  | succ f ih =>
    intro n h
    simp only [Nat.toDigitsCore]
    by_cases h0 : n / 10 = 0
    · have hn : n < 10 := by omega
      simp only [h0, if_true, eq_self_iff_true]
      have : decimalValue [Nat.digitChar (n % 10)] = digitVal (Nat.digitChar (n % 10)) := by
        simp [decimalValue]
      rw [this, digitVal_digitChar (n % 10) (Nat.mod_lt n (by norm_num))]
      omega
    · have hpos : 0 < n := by
        rcases Nat.eq_zero_or_pos n with h1 | h1
        · subst h1; simp at h0
        · exact h1
      have hlt : n / 10 < f := by
        have := Nat.div_lt_self hpos (by norm_num : 1 < 10)
        omega
      rw [if_neg h0, toDigitsCore_append 10 f (n / 10) [Nat.digitChar (n % 10)],
        decimalValue_append_singleton, ih (n / 10) hlt,
        digitVal_digitChar (n % 10) (Nat.mod_lt n (by norm_num))]
      omega

theorem decimalValue_toDigits (n : Nat) :
    decimalValue (Nat.toDigits 10 n) = n :=
  decimalValue_toDigitsCore (n + 1) n (Nat.lt_succ_self n)

theorem Nat_repr_injective : Function.Injective Nat.repr := by
  intro m n h
  have hd : Nat.toDigits 10 m = Nat.toDigits 10 n := by
    have := congrArg String.data h
    simpa [Nat.repr, List.asString] using this
  have := congrArg decimalValue hd
  rwa [decimalValue_toDigits, decimalValue_toDigits] at this

theorem ledgerAppend_eq_take {α : Type} (log : List α) (e : α)
    (h : log.length ≤ 100) : ledgerAppend log e = (e :: log).take 100 := by
  unfold ledgerAppend
  by_cases hl : (e :: log).length > 100
  · have h101 : (e :: log).length = 101 := by simp at hl ⊢; omega
    rw [if_pos hl, List.dropLast_eq_take, h101]
  · simp only [hl, if_false]
    exact (List.take_of_length_le (by omega)).symm

theorem take_append_take {α : Type} (A B : List α) :
    (A ++ B.take 100).take 100 = (A ++ B).take 100 := by
  rw [List.take_append_eq_append_take, List.take_append_eq_append_take,
    List.take_take]
  congr 1
  simp [Nat.sub_le, inf_eq_left]

theorem foldl_ledgerAppend {α : Type} (es : List α) :
    ∀ log : List α, log.length ≤ 100 →
      es.foldl ledgerAppend log = (es.reverse ++ log).take 100 := by
  induction es with
  | nil => intro log h; simp [List.take_of_length_le h]
  | cons e es ih =>
    intro log h
    rw [List.foldl_cons, ledgerAppend_eq_take log e h,
      ih _ (by simp [List.length_take]), take_append_take]
    simp

/-- C5: after any sequence of appends the ledger is exactly the (at most)
100 most recent entries, most-recent-first; in particular it never exceeds
100 entries, and appending 150 entries leaves exactly the 100 most recent.
-/
theorem ledger_bound_and_order (es : List UsageLogEntry) :
    es.foldl ledgerAppend [] = es.reverse.take 100 ∧
    (es.foldl ledgerAppend []).length ≤ 100 ∧
    (es.length = 150 →
      es.foldl ledgerAppend [] = (es.drop 50).reverse) := by
  have h := foldl_ledgerAppend es [] (by simp)
  rw [List.append_nil] at h
  refine ⟨h, ?_, ?_⟩
  · rw [h]; simp [List.length_take]
  · intro h150
    rw [h, List.take_reverse, h150]

/-- C5 witness: a concrete run appending 150 entries to the empty ledger
leaves exactly the 100 most recent, most-recent-first. -/
theorem ledger_bound_and_order_witness :
    entries150.foldl ledgerAppend [] = (entries150.drop 50).reverse :=
  (ledger_bound_and_order entries150).2.2 (by simp [entries150])

/-- C2: a token issued for user U, unaltered, verified under the same key
within 7 days of issuance, resolves to exactly U; a token whose signature
is altered, or whose age exceeds 7 days, resolves to invalid; and
verification is a total function into an option (the JS wrapper catches
every exception and returns null), so it never throws to the caller. -/
theorem token_verify_correct (secret u : String) (iat now : Nat)
    (t : Token) (sig2 : String × String × Nat) :
    (now < iat + sevenDaysSecs →
      verifyToken secret now (generateToken secret u iat) = some u) ∧
    (sig2 ≠ (secret, u, iat) →
      verifyToken secret now { generateToken secret u iat with sig := sig2 } = none) ∧
    (t.iat + sevenDaysSecs < now → verifyToken secret now t = none) ∧
    (verifyToken secret now t = none ∨
      ∃ uid, verifyToken secret now t = some uid) := by
  refine ⟨?_, ?_, ?_, ?_⟩
  · intro h
    simp [verifyToken, generateToken, h]
  · intro h
    simp [verifyToken, generateToken, h]
  · intro h
    have : ¬ now < t.iat + sevenDaysSecs := by omega
    simp [verifyToken, this]
  · unfold verifyToken
    by_cases h : t.sig = (secret, t.userId, t.iat) ∧ now < t.iat + sevenDaysSecs
    · exact Or.inr ⟨t.userId, by simp [h]⟩
    · exact Or.inl (by simp [h])

/-- C2 witness: concrete instantiation of the round-trip, the tampered
signature, and the expired token. -/
theorem token_verify_correct_witness :
    verifyToken "k" 10 (generateToken "k" "u1" 3) = some "u1" ∧
    verifyToken "k" 10 { generateToken "k" "u1" 3 with sig := ("k2", "u1", 3) } = none ∧
    verifyToken "k" (sevenDaysSecs + 5) (generateToken "k" "u1" 3) = none := by
  refine ⟨?_, ?_, ?_⟩
  · exact (token_verify_correct "k" "u1" 3 10 (generateToken "k" "u1" 3)
      (("k2" : String), ("u1" : String), (3 : Nat))).1 (by simp [sevenDaysSecs])
  · exact (token_verify_correct "k" "u1" 3 10 (generateToken "k" "u1" 3)
      (("k2" : String), ("u1" : String), (3 : Nat))).2.1 (by simp)
  · exact (token_verify_correct "k" "u1" 3 (sevenDaysSecs + 5)
      (generateToken "k" "u1" 3) (("k2" : String), ("u1" : String), (3 : Nat))).2.2.1
      (by simp [generateToken, sevenDaysSecs])

/-- C3: a missing token cookie, a token failing verification (whether
altered or expired, indistinguishably), and a token whose userId matches no
stored user all produce a 401 response from `requireAuth`; a non-admin user
hitting the teacher gate produces a 403 from `requireTeacher`, a status
distinct from 401. -/
theorem auth_gate_statuses (users : List User) (secret : String) (now : Nat)
    (t t2 : Token) (uid : String) (u : User) :
    (requireAuth users secret now none = .fail 401 "Not authenticated") ∧
    (verifyToken secret now t = none →
      requireAuth users secret now (some t) = .fail 401 "Invalid token") ∧
    (verifyToken secret now t = some uid →
      users.find? (fun v => v.id == uid) = none →
      requireAuth users secret now (some t) = .fail 401 "User not found") ∧
    (verifyToken secret now t = none → verifyToken secret now t2 = none →
      requireAuth users secret now (some t) =
        requireAuth users secret now (some t2)) ∧
    (u.role ≠ "admin" →
      requireTeacher u = some (403, "Teacher access required") ∧ 403 ≠ 401) := by
  refine ⟨rfl, ?_, ?_, ?_, ?_⟩
  · intro h; simp [requireAuth, h]
  · intro h1 h2; simp [requireAuth, h1, h2]
  · intro h1 h2; simp [requireAuth, h1, h2]
  · intro h; exact ⟨by simp [requireTeacher, h], by omega⟩

/-- C3 witness: a concrete state in which the three 401 cases and the 403
case all arise as stated. -/
theorem auth_gate_statuses_witness :
    (requireAuth [demoUser] "k" 10 none = .fail 401 "Not authenticated") ∧
    (requireAuth [demoUser] "k" 10
        (some { generateToken "k" demoUser.id 3 with sig := ("x", "y", 0) }) =
      .fail 401 "Invalid token") ∧
    (requireAuth [demoUser] "k" 10 (some (generateToken "k" "absent" 3)) =
      .fail 401 "User not found") ∧
    (requireTeacher demoUser = some (403, "Teacher access required")) := by
  have h := auth_gate_statuses [demoUser] "k" 10
    { generateToken "k" demoUser.id 3 with sig := ("x", "y", 0) }
    (generateToken "k" "absent" 3) "absent" demoUser
  have h2 := auth_gate_statuses [demoUser] "k" 10
    (generateToken "k" "absent" 3) (generateToken "k" "absent" 3) "absent" demoUser
  refine ⟨h.1, h.2.1 (by decide), h2.2.2.1 (by decide) (by decide),
    (h.2.2.2.2 (by decide)).1⟩

theorem register_appends_newUser (users : List User) (req : RegisterReq)
    (now : Nat) (h : (register users req now).1 = .created) :
    (register users req now).2 = users ++ [newUser req now] := by
  unfold register at h ⊢
  by_cases h1 : !(jsPresent req.name && jsPresent req.email && jsPresent req.password)
  · rw [if_pos h1] at h; exact absurd h (by simp)
  · rw [if_neg h1] at h ⊢
    by_cases h2 : (req.password.getD "").length < 6
    · rw [if_pos h2] at h; exact absurd h (by simp)
    · rw [if_neg h2] at h ⊢
      cases hf : users.find? (fun u => u.email == req.email.getD "") with
      | some u => rw [hf] at h; exact absurd h (by simp)
      | none => rfl

theorem assignedRole_not_teacher {c : String}
    (hs : jsStartsWith (jsToUpperCase c) "TEACHER" = false) :
    assignedRole (some c) = "student" := by
  unfold assignedRole
  simp [hs]

/-- C4: register assigns role admin exactly when an access code is supplied
whose uppercase form begins with the literal prefix TEACHER (so teacher123
and TEACHERLESS both yield admin); in every other case, including a missing
access code, the role is student, and every successful registration stores
a user carrying exactly this assigned role. -/
theorem register_role_rule (ac : Option String) (users : List User)
    (req : RegisterReq) (now : Nat) :
    (assignedRole ac = "admin" ↔
      ∃ c, ac = some c ∧ jsStartsWith (jsToUpperCase c) "TEACHER" = true) ∧
    (assignedRole ac = "admin" ∨ assignedRole ac = "student") ∧
    assignedRole none = "student" ∧
    assignedRole (some "teacher123") = "admin" ∧
    assignedRole (some "TEACHERLESS") = "admin" ∧
    ((register users req now).1 = .created →
      ∃ u, (register users req now).2 = users ++ [u] ∧
        u.role = assignedRole req.access_code) := by
  have hiff : ∀ ac2 : Option String, assignedRole ac2 = "admin" ↔
      ∃ c, ac2 = some c ∧ jsStartsWith (jsToUpperCase c) "TEACHER" = true := by
    intro ac2
    cases ac2 with
    | none =>
      constructor
      · intro h; exact absurd h (by decide)
      · rintro ⟨c, hc, -⟩; exact absurd hc (by simp)
    | some c =>
      by_cases hemp : c = ""
      · subst hemp
        constructor
        · intro h; exact absurd h (by decide)
        · rintro ⟨c2, hc2, hs⟩
          obtain rfl : c2 = "" := by injection hc2 with h2; exact h2.symm
          exact absurd hs (by decide)
      · constructor
        · intro h
          refine ⟨c, rfl, ?_⟩
          cases hs : jsStartsWith (jsToUpperCase c) "TEACHER" with
          | true => rfl
          | false =>
            rw [assignedRole_not_teacher hs] at h
            exact absurd h (by decide)
        · rintro ⟨c2, hc2, hs⟩
          obtain rfl : c2 = c := by injection hc2 with h2; exact h2.symm
          unfold assignedRole
          simp [jsPresent, hemp, hs]
  refine ⟨hiff ac, ?_, by decide, by decide, by decide, ?_⟩
  · unfold assignedRole
    by_cases h : jsPresent ac && jsStartsWith (jsToUpperCase (ac.getD "")) "TEACHER"
    · rw [if_pos h]; exact Or.inl rfl
    · rw [if_neg h]; exact Or.inr rfl
  · intro h
    exact ⟨newUser req now, register_appends_newUser users req now h, rfl⟩

/-- C4 witness: a concrete successful registration with access code
TEACHERLESS stores a user whose role is the assigned one (admin). -/
theorem register_role_rule_witness :
    ∃ u, (register [] regReqT 7).2 = [] ++ [u] ∧
      u.role = assignedRole regReqT.access_code :=
  (register_role_rule (some "TEACHERLESS") [] regReqT 7).2.2.2.2.2 (by decide)

/-- C7 counterexample: two distinct successful register calls that happen
at the same millisecond timestamp (`Date.now()` has millisecond resolution)
store two users sharing the id "5": the claimed uniqueness fails. -/
theorem user_id_unique_counterexample :
    (register [] regReqA 5).1 = .created ∧
    (register (register [] regReqA 5).2 regReqB 5).1 = .created ∧
    ((register (register [] regReqA 5).2 regReqB 5).2.map User.id)
      = ["5", "5"] := by
  refine ⟨by decide, by decide, by decide⟩

/-- C7 (amended): users created by distinct successful register calls have
distinct ids provided the two calls happen at distinct millisecond
timestamps; the id is the decimal representation of the timestamp, so
distinct timestamps give distinct ids. -/
theorem user_id_unique_distinct_times (users1 users2 : List User)
    (r1 r2 : RegisterReq) (t1 t2 : Nat) (hne : t1 ≠ t2)
    (h1 : (register users1 r1 t1).1 = .created)
    (h2 : (register users2 r2 t2).1 = .created) :
    (register users1 r1 t1).2 = users1 ++ [newUser r1 t1] ∧
    (register users2 r2 t2).2 = users2 ++ [newUser r2 t2] ∧
    (newUser r1 t1).id ≠ (newUser r2 t2).id := by
  refine ⟨register_appends_newUser users1 r1 t1 h1,
    register_appends_newUser users2 r2 t2 h2, ?_⟩
  intro h
  exact hne (Nat_repr_injective h)

/-- C7 witness: two concrete register calls at distinct timestamps yield
distinct ids. -/
theorem user_id_unique_distinct_times_witness :
    (register [] regReqA 5).2 = [] ++ [newUser regReqA 5] ∧
    (register [] regReqB 6).2 = [] ++ [newUser regReqB 6] ∧
    (newUser regReqA 5).id ≠ (newUser regReqB 6).id :=
  user_id_unique_distinct_times [] [] regReqA regReqB 5 6 (by decide)
    (by decide) (by decide)

theorem remixPrompts_eq_none (k : String) (h : k ∉ remixKeys)
    (h2 : k ∉ protoKeys) : remixPrompts k = none := by
  simp only [remixKeys, List.mem_cons, List.not_mem_nil, or_false] at h
  push_neg at h
  obtain ⟨n1, n2, n3, n4, n5, n6, n7, n8, n9, n10, n11, n12, n13, n14, n15,
    n16, n17, n18⟩ := h
  unfold remixPrompts
  rw [if_neg n1, if_neg n2, if_neg n3, if_neg n4, if_neg n5, if_neg n6,
    if_neg n7, if_neg n8, if_neg n9, if_neg n10, if_neg n11, if_neg n12,
    if_neg n13, if_neg n14, if_neg n15, if_neg n16, if_neg n17, if_neg n18,
    if_neg h2]

/-- C6 counterexample: "constructor" is a string value of remixType outside
the 18 named styles, yet the bracket lookup finds the truthy
`Object.prototype.constructor` through the prototype chain, so the
resolution selects that inherited member and does NOT fall back to the
professional template — refuting the claimed universal fallback. -/
theorem remix_prompt_fallback_counterexample :
    "constructor" ∉ remixKeys ∧
    resolvePrompt (some "constructor") = .protoMember "constructor" ∧
    resolvePrompt (some "constructor") ≠ .template professionalPrompt := by
  refine ⟨by decide, by decide, by decide⟩

/-- C6 (amended): resolving `remixType` silently falls back to the default
professional-tone template when the field is absent and for every string
key that is neither one of the 18 named styles nor the name of one of the
12 members a plain object inherits from `Object.prototype`; for those 12
inherited names the lookup is truthy, so the inherited member is selected
instead of the default; resolution is total either way, so no string value
of `remixType` produces an error. -/
theorem remix_prompt_fallback (k : String) :
    resolvePrompt none = .template professionalPrompt ∧
    (k ∉ remixKeys → k ∉ protoKeys →
      resolvePrompt (some k) = .template professionalPrompt) ∧
    (k ∈ protoKeys → resolvePrompt (some k) = .protoMember k) ∧
    remixPrompts "professional" = some (.template professionalPrompt) := by
  refine ⟨rfl, ?_, ?_, by decide⟩
  · intro h h2
    unfold resolvePrompt
    rw [show (some k).bind remixPrompts = remixPrompts k from rfl,
      remixPrompts_eq_none k h h2]
  · intro h
    simp only [protoKeys, List.mem_cons, List.not_mem_nil, or_false] at h
    rcases h with rfl | rfl | rfl | rfl | rfl | rfl | rfl | rfl | rfl | rfl |
      rfl | rfl
    all_goals decide

/-- C6 witness: a concrete key outside both the 18 styles and the
prototype members falls back to the professional template, and a concrete
inherited name selects the inherited member. -/
theorem remix_prompt_fallback_witness :
    resolvePrompt (some "banana") = .template professionalPrompt ∧
    resolvePrompt (some "toString") = .protoMember "toString" :=
  ⟨(remix_prompt_fallback "banana").2.1 (by decide) (by decide),
   (remix_prompt_fallback "toString").2.2.1 (by decide)⟩

/-- C1: for a remix request whose assignmentId resolves to an assignment
with `aiAllowed = false`, the server state (usage ledger, every user's
counters and lastActive) is returned unchanged and the upstream is never
called, whatever the upstream oracle would do; and whenever the request
reaches the policy gate (non-empty content, configured upstream) the
response is the 403 PolicyBlocked result carrying the machine-readable
blocked flag. -/
theorem remix_policy_blocked (s : ServerState) (user : User) (req : RemixReq)
    (conf : Bool) (up : UpstreamBehavior) (now : Nat) (a : Assignment)
    (hfind : findAssignment req.assignmentId = some a)
    (hblock : a.aiAllowed = false) :
    ((remixHandler s user req conf up now).state = s ∧
     (remixHandler s user req conf up now).upstreamQuery = none) ∧
    (contentMissing req.content = false → conf = true →
      (remixHandler s user req conf up now).result =
        .policyBlocked "AI is not allowed for this assignment" ∧
      remixStatus (remixHandler s user req conf up now).result = 403 ∧
      blockedFlag (remixHandler s user req conf up now).result = true) := by
  have hp : policyBlocksRemix req.assignmentId = true := by
    unfold policyBlocksRemix
    rw [hfind]
    show (!a.aiAllowed) = true
    rw [hblock]
    rfl
  by_cases hc : contentMissing req.content
  · constructor
    · unfold remixHandler
      rw [if_pos hc]
      exact ⟨rfl, rfl⟩
    · intro hcf
      rw [hcf] at hc
      exact absurd hc (by simp)
  · cases hg : conf with
    | false =>
      constructor
      · unfold remixHandler
        rw [if_neg hc]
        exact ⟨rfl, rfl⟩
      · intro _ hgt
        exact absurd hgt (by simp)
    | true =>
      have hhandler : remixHandler s user req true up now =
          ⟨.policyBlocked "AI is not allowed for this assignment", s, none⟩ := by
        unfold remixHandler
        rw [if_neg hc]
        simp only [hp]
        rfl
      rw [hhandler]
      exact ⟨⟨rfl, rfl⟩, fun _ _ => ⟨rfl, rfl, rfl⟩⟩

/-- C1 witness: a concrete remix request against assignment 2 (aiAllowed
false), with configured upstream that would succeed, is blocked with the
403 flag, makes no upstream call and leaves the state unchanged. -/
theorem remix_policy_blocked_witness :
    ((remixHandler emptyState demoUser blockedReq true
        (.response ["done"]) 9).state = emptyState ∧
     (remixHandler emptyState demoUser blockedReq true
        (.response ["done"]) 9).upstreamQuery = none) ∧
    ((remixHandler emptyState demoUser blockedReq true
        (.response ["done"]) 9).result =
      .policyBlocked "AI is not allowed for this assignment" ∧
     remixStatus (remixHandler emptyState demoUser blockedReq true
        (.response ["done"]) 9).result = 403 ∧
     blockedFlag (remixHandler emptyState demoUser blockedReq true
        (.response ["done"]) 9).result = true) := by
  have h := remix_policy_blocked emptyState demoUser blockedReq true
    (.response ["done"]) 9 (assignments.get ⟨1, by decide⟩) (by decide) (by decide)
  exact ⟨h.1, h.2 (by decide) rfl⟩

theorem ledgerAppend_head {α : Type} (log : List α) (e : α) :
    (ledgerAppend log e).head? = some e := by
  unfold ledgerAppend
  by_cases h : (e :: log).length > 100
  · rw [if_pos h]
    cases log with
    | nil => simp at h
    | cons b bs => rfl
  · rw [if_neg h]
    rfl

/-- C8 counterexample: a successful remix of 101-character content (longer
than the 100-character bound) records a preview of 103 characters — the
first 100 characters plus the unconditional "..." marker — which is NOT
strictly shorter than the content, refuting the claim as stated. -/
theorem remix_preview_counterexample :
    chars101.length = 101 ∧ 100 < chars101.length ∧
    ((remixHandler emptyState demoUser longContentReq true
        (.response ["out"]) 0).state.aiUsageLog.map
          (fun e => e.originalContent.length) = [103]) ∧
    ¬ (103 < chars101.length) := by
  refine ⟨by decide, by decide, by decide, by decide⟩

/-- C8 (amended): every successful remix records an entry whose stored
preview is the first 100 characters of the content followed by the literal
three-character "..." marker; the prefix part is bounded at 100 characters,
and the preview is strictly shorter than the content exactly when the
content exceeds 103 characters (for content of at most 100 characters the
preview contains the whole content followed by the marker). -/
theorem remix_preview_truncation (s : ServerState) (user : User)
    (req : RemixReq) (conf : Bool) (up : UpstreamBehavior) (now : Nat)
    (c text : String) (rest : List String)
    (hc : req.content = some c)
    (hmiss : contentMissing req.content = false)
    (hconf : conf = true)
    (hpol : policyBlocksRemix req.assignmentId = false)
    (hup : up = .response (text :: rest)) :
    ∃ entry,
      (remixHandler s user req conf up now).state.aiUsageLog.head? =
        some entry ∧
      entry.originalContent = jsSubstringTo c 100 ++ "..." ∧
      (jsSubstringTo c 100).length ≤ 100 ∧
      entry.originalContent.length = min 100 c.length + 3 ∧
      (103 < c.length → entry.originalContent.length < c.length) := by
  subst hconf hup
  have hres : remixHandler s user req true (.response (text :: rest)) now =
      remixHandler s user req true (.response (text :: rest)) now := rfl
  rw [hc] at hmiss
  have hhandler :
      (remixHandler s user req true (.response (text :: rest)) now).state.aiUsageLog =
        ledgerAppend s.aiUsageLog
          { id := Nat.repr now, userId := user.id, userName := user.name,
            userEmail := user.email, remixType := req.remixType,
            assignmentId := if jsPresent req.assignmentId then req.assignmentId else none,
            originalContent := jsSubstringTo (req.content.getD "") 100 ++ "...",
            contentLength := (req.content.getD "").length,
            timestamp := isoTimestamp now, timeAgo := "Just now" } := by
    unfold remixHandler
    rw [hc, if_neg (by rw [hmiss]; simp), hpol]
    rfl
  rw [hhandler, hc]
  refine ⟨_, ledgerAppend_head _ _, rfl, ?_, ?_, ?_⟩
  · show ((c.data.take 100 : List Char) : List Char).length ≤ 100
    rw [List.length_take]
    omega
  · show (jsSubstringTo c 100 ++ "...").length = min 100 c.length + 3
    rw [String.length_append]
    show (c.data.take 100).length + 3 = min 100 c.length + 3
    rw [List.length_take]
    rfl
  · intro hlen
    show (jsSubstringTo c 100 ++ "...").length < c.length
    rw [String.length_append]
    show (c.data.take 100).length + 3 < c.length
    rw [List.length_take]
    show min 100 c.data.length + 3 < c.length
    have : c.length = c.data.length := rfl
    omega

/-- C8 witness: amended statement instantiated on a concrete 101-character
content (prefix of 100 characters plus marker, preview not shorter). -/
theorem remix_preview_truncation_witness :
    ∃ entry,
      (remixHandler emptyState demoUser longContentReq true
          (.response ("out" :: [])) 3).state.aiUsageLog.head? =
        some entry ∧
      entry.originalContent = jsSubstringTo chars101 100 ++ "..." ∧
      (jsSubstringTo chars101 100).length ≤ 100 ∧
      entry.originalContent.length = min 100 chars101.length + 3 ∧
      (103 < chars101.length → entry.originalContent.length < chars101.length) :=
  remix_preview_truncation emptyState demoUser longContentReq true
    (.response ("out" :: [])) 3 chars101 "out" []
    rfl (by decide) rfl (by decide) rfl

theorem roundTenth_close (x : ℚ) : |roundTenth x - x| ≤ 1 / 20 := by
  have h1 : ((⌊x * 10 + 1 / 2⌋ : ℤ) : ℚ) ≤ x * 10 + 1 / 2 :=
    Int.floor_le (x * 10 + 1 / 2)
  have h2 : x * 10 + 1 / 2 - 1 < ((⌊x * 10 + 1 / 2⌋ : ℤ) : ℚ) :=
    Int.sub_one_lt_floor (x * 10 + 1 / 2)
  unfold roundTenth
  rw [abs_le]
  constructor
  · linarith
  · linarith

theorem roundTenth_contract : ToFixedContract roundTenth := by
  constructor
  · intro x hx
    unfold roundTenth
    rw [div_mul_cancel₀ _ (by norm_num : (10 : ℚ) ≠ 0)]
    exact Rat.den_intCast _
  · intro x hx
    exact roundTenth_close x

/-- C9 counterexample: with three students and one ledger entry the exact
average is 1/3, but `toFixed(1)` always reports an integer number of tenths
(its string has exactly one decimal digit), and 1/3 is not an integer
number of tenths — so under every realization of the division-plus-toFixed
computation admitted by its contract, the reported statistic differs from
the exact quotient, refuting the claimed equality at this reachable state.
-/
theorem average_usage_counterexample :
    0 < (studentsOf thirdState.users).length ∧
    (thirdState.aiUsageLog.length : ℚ) /
        ((studentsOf thirdState.users).length : ℚ) = 1 / 3 ∧
    ¬ ∃ f : ℚ → ℚ, ToFixedContract f ∧
        averageUsage f thirdState =
          (thirdState.aiUsageLog.length : ℚ) /
            ((studentsOf thirdState.users).length : ℚ) := by
  have hstu : (studentsOf thirdState.users).length = 3 := by decide
  have hlog : thirdState.aiUsageLog.length = 1 := by decide
  have hq : (thirdState.aiUsageLog.length : ℚ) /
      ((studentsOf thirdState.users).length : ℚ) = 1 / 3 := by
    rw [hstu, hlog]
    norm_num
  refine ⟨by rw [hstu]; norm_num, hq, ?_⟩
  rintro ⟨f, ⟨hden, -⟩, heq⟩
  unfold averageUsage at heq
  rw [if_pos (by rw [hstu]; norm_num), hq] at heq
  have hd := hden (1 / 3) (by norm_num)
  rw [heq] at hd
  norm_num at hd

/-- C9 (amended): the average-usage statistic is the defined value 0 when
no students exist — the guarded branch never divides, so no division by
zero or NaN can arise — and when students exist it is the toFixed(1)
rendering of the quotient: an integer number of tenths within 1/20 of the
exact total-usage-per-student quotient, but not in general equal to it. -/
theorem average_usage_rounded (s : ServerState) (f : ℚ → ℚ)
    (hf : ToFixedContract f) :
    ((studentsOf s.users).length = 0 → averageUsage f s = 0) ∧
    (0 < (studentsOf s.users).length →
      averageUsage f s =
        f ((s.aiUsageLog.length : ℚ) / ((studentsOf s.users).length : ℚ)) ∧
      |averageUsage f s -
        (s.aiUsageLog.length : ℚ) / ((studentsOf s.users).length : ℚ)| ≤
          1 / 20 ∧
      (averageUsage f s * 10).den = 1) := by
  obtain ⟨hden, hclose⟩ := hf
  constructor
  · intro h
    unfold averageUsage
    rw [h]
    norm_num
  · intro h
    have hq : (0 : ℚ) ≤
        (s.aiUsageLog.length : ℚ) / ((studentsOf s.users).length : ℚ) :=
      div_nonneg (Nat.cast_nonneg _) (Nat.cast_nonneg _)
    have heq : averageUsage f s =
        f ((s.aiUsageLog.length : ℚ) / ((studentsOf s.users).length : ℚ)) := by
      unfold averageUsage
      rw [if_pos h]
    exact ⟨heq, heq ▸ hclose _ hq, heq ▸ hden _ hq⟩

/-- C9 witness: with the ideal round-half-up realization of the contract,
the three-student state reports an integer number of tenths within 1/20 of
the exact quotient, and the zero-student state reports 0. -/
theorem average_usage_rounded_witness :
    |averageUsage roundTenth thirdState -
      (thirdState.aiUsageLog.length : ℚ) /
        ((studentsOf thirdState.users).length : ℚ)| ≤ 1 / 20 ∧
    (averageUsage roundTenth thirdState * 10).den = 1 ∧
    averageUsage roundTenth emptyState = 0 :=
  ⟨((average_usage_rounded thirdState roundTenth roundTenth_contract).2
      (by decide)).2.1,
   ((average_usage_rounded thirdState roundTenth roundTenth_contract).2
      (by decide)).2.2,
   (average_usage_rounded emptyState roundTenth roundTenth_contract).1
     (by decide)⟩

/-- C10: the two test endpoints run no authentication or role middleware —
their output is the same with any cookie or none — and they return the full
registered-user list (each record stripped of its password hash but keeping
email and role) and the 10 most recent usage-log entries respectively. -/
theorem test_endpoints_open (c c2 : Option Token) (s : ServerState) :
    testUsersHandler c s = testUsersHandler c2 s ∧
    testUsersHandler c s = (s.users.length, s.users.map stripPassword) ∧
    (∀ u ∈ s.users, ∃ p ∈ (testUsersHandler c s).2,
      p.email = u.email ∧ p.role = u.role) ∧
    testLogsHandler c s = testLogsHandler c2 s ∧
    testLogsHandler c s = (s.aiUsageLog.length, s.aiUsageLog.take 10) := by
  refine ⟨rfl, rfl, ?_, rfl, rfl⟩
  intro u hu
  exact ⟨stripPassword u, List.mem_map_of_mem _ hu, rfl, rfl⟩

/-- C10 witness: concrete instantiation — with and without a token the
output agrees, and a stored student appears with email and role intact. -/
theorem test_endpoints_open_witness :
    testUsersHandler none thirdState =
      testUsersHandler (some (generateToken "k" "u" 0)) thirdState ∧
    ∃ p ∈ (testUsersHandler none thirdState).2,
      p.email = (mkStudent 1).email ∧ p.role = (mkStudent 1).role :=
  ⟨(test_endpoints_open none (some (generateToken "k" "u" 0)) thirdState).1,
   (test_endpoints_open none (some (generateToken "k" "u" 0)) thirdState).2.2.1
     (mkStudent 1) (by decide)⟩
